import Mathlib

/-!
Shallow embedding of `main.py` from the `obdecry` repository (a FastAPI web
front end for a remote Lua obfuscation service), together with proofs of the
specification claims about it.

Modelling conventions:
* A Python `str` (a sequence of Unicode code points) is modelled as `List Char`.
* A Python `bytes` value is modelled as `List Nat` (each element a byte value).
* `Optional[str]` form fields are `Option (List Char)`; Python truthiness of a
  string (`not s` is true exactly for `None` and `""`) is `truthyOpt`.
* The behaviour of each outbound HTTP call is an input to the model: an
  inductive datatype whose constructors cover a normal response (status plus
  the JSON field the code reads) and an exception raised at any point of the
  call (network error, timeout, malformed JSON body, body-read failure).
* Functions that Python wraps in `try/except` are modelled in two layers: a
  `..._try` body returning `Except (List Char) _` (the `.error` case is the
  body raising), and the full function applying the source's `except` clause.
  The handler-visible result is an `Except`, so "never raises to the caller"
  is the provable statement that the visible result is always `.ok`.
* Outbound calls are recorded in an event trace (`Event`); each event carries
  the session token of the `aiohttp.ClientSession` it was made on, so the
  ordering and shared-connection-context claims are statable.
-/

/-- Model of a Python `str`: a sequence of Unicode code points. -/
abbrev Str := List Char

/-- Python truthiness of an `Optional[str]`: `None` and `""` are falsy. -/
def truthyOpt (o : Option Str) : Bool :=
  match o with
  | none => false
  | some s => !s.isEmpty

/-- Python `a or b` for `a : Optional[str]`, `b : str` (used for
`file.filename or "uploaded_script.lua"`, `script or ""`, and
`filename or f"obfuscated_..."` in `main.py`). -/
def pyOr (o : Option Str) (d : Str) : Str :=
  match o with
  | none => d
  | some s => if s.isEmpty then d else s

/-- Python `str.lower()` restricted to what matters for the ASCII suffix test
in `main.py` line 297: ASCII letters are lowercased per character. -/
def pyLower (s : Str) : Str := s.map Char.toLower

/-- The replacement character U+FFFD produced by `bytes.decode("utf-8",
errors="replace")` for ill-formed input. -/
def replChar : Char := Char.ofNat 0xFFFD

/-- UTF-8 encoding of a single Unicode scalar value (model of Python
`str.encode("utf-8")`, per character). -/
def utf8EncodeChar (c : Char) : List Nat :=
  let n := c.toNat
  if n ≤ 0x7F then [n]
  else if n ≤ 0x7FF then
    [0xC0 + n / 0x40, 0x80 + n % 0x40]
  else if n ≤ 0xFFFF then
    [0xE0 + n / 0x1000, 0x80 + (n / 0x40) % 0x40, 0x80 + n % 0x40]
  else
    [0xF0 + n / 0x40000, 0x80 + (n / 0x1000) % 0x40,
     0x80 + (n / 0x40) % 0x40, 0x80 + n % 0x40]

/-- Model of Python `str.encode("utf-8")` (line 300 `obfuscated.encode("utf-8")`
and line 37 `content.encode("utf-8")` of `main.py`). -/
def utf8Encode (s : Str) : List Nat := (s.map utf8EncodeChar).flatten

/-- State of the incremental UTF-8 decoder: the code point accumulated so far,
the number of continuation bytes still needed, and the admissible range for the
next byte (tightened after an `E0`/`ED`/`F0`/`F4` lead to reject overlong forms
and surrogates, exactly as CPython does). -/
structure Utf8State where
  codepoint : Nat
  needed : Nat
  lo : Nat
  hi : Nat
  deriving DecidableEq

/-- Initial (ground) decoder state: no multi-byte sequence in progress. -/
def utf8Init : Utf8State := ⟨0, 0, 0x80, 0xBF⟩

/-- Process one byte in the ground state (a lead byte). Returns the emitted
characters and the next state. -/
def utf8Lead (b : Nat) : List Char × Utf8State :=
  if b ≤ 0x7F then ([Char.ofNat b], utf8Init)
  else if b ≤ 0xC1 then ([replChar], utf8Init)
  else if b ≤ 0xDF then ([], ⟨b - 0xC0, 1, 0x80, 0xBF⟩)
  else if b ≤ 0xEF then
    ([], ⟨b - 0xE0, 2, if b = 0xE0 then 0xA0 else 0x80, if b = 0xED then 0x9F else 0xBF⟩)
  else if b ≤ 0xF4 then
    ([], ⟨b - 0xF0, 3, if b = 0xF0 then 0x90 else 0x80, if b = 0xF4 then 0x8F else 0xBF⟩)
  else ([replChar], utf8Init)

/-- Process one byte in an arbitrary decoder state. An out-of-range byte while
a sequence is in progress ends the maximal ill-formed subpart: one U+FFFD is
emitted and the byte is reprocessed as a lead byte. -/
def utf8Step (st : Utf8State) (b : Nat) : List Char × Utf8State :=
  if st.needed = 0 then utf8Lead b
  else if st.lo ≤ b ∧ b ≤ st.hi then
    let cp := st.codepoint * 0x40 + (b - 0x80)
    if st.needed = 1 then ([Char.ofNat cp], utf8Init)
    else ([], ⟨cp, st.needed - 1, 0x80, 0xBF⟩)
  else
    let l := utf8Lead b
    (replChar :: l.1, l.2)

/-- Run the incremental decoder over a byte list; a sequence left unfinished at
end of input contributes one final U+FFFD. -/
def utf8Run (st : Utf8State) : List Nat → List Char
  | [] => if st.needed = 0 then [] else [replChar]
  | b :: rest =>
    let s := utf8Step st b
    s.1 ++ utf8Run s.2 rest

/-- Model of Python `bytes.decode("utf-8", errors="replace")` (line 283 of
`main.py`): standard incremental UTF-8 decoding with CPython's lead and
continuation byte ranges, emitting one U+FFFD per maximal subpart of an
ill-formed sequence. -/
def utf8DecodeReplace (l : List Nat) : List Char := utf8Run utf8Init l

example : utf8DecodeReplace [0xFF] = [replChar] := by decide
example : utf8Encode [replChar] = [0xEF, 0xBF, 0xBD] := by decide
example : utf8DecodeReplace (utf8Encode "héllo✓".data) = "héllo✓".data := by decide
example : utf8DecodeReplace [0xE0, 0xA0, 0x41] = [replChar, 'A'] := by decide

/-- The code point of a `Char` is a Unicode scalar value (no surrogates). -/
theorem char_valid_nat (c : Char) :
    c.toNat < 0xD800 ∨ (0xDFFF < c.toNat ∧ c.toNat < 0x110000) := by
  rcases c.valid with h | ⟨h1, h2⟩
  · exact Or.inl (by exact_mod_cast h)
  · exact Or.inr ⟨by exact_mod_cast h1, by exact_mod_cast h2⟩

/-- Characterisation of `utf8Lead` on an ASCII byte. -/
theorem utf8Lead_one (b : Nat) (h : b ≤ 0x7F) :
    utf8Lead b = ([Char.ofNat b], utf8Init) := by
  unfold utf8Lead
  rw [if_pos h]

/-- Characterisation of `utf8Lead` on a two-byte lead. -/
theorem utf8Lead_two (b : Nat) (h1 : 0xC2 ≤ b) (h2 : b ≤ 0xDF) :
    utf8Lead b = ([], ⟨b - 0xC0, 1, 0x80, 0xBF⟩) := by
  unfold utf8Lead
  rw [if_neg (by omega), if_neg (by omega), if_pos h2]

/-- Characterisation of `utf8Lead` on a three-byte lead. -/
theorem utf8Lead_three (b : Nat) (h1 : 0xE0 ≤ b) (h2 : b ≤ 0xEF) :
    utf8Lead b = ([], ⟨b - 0xE0, 2, if b = 0xE0 then 0xA0 else 0x80,
      if b = 0xED then 0x9F else 0xBF⟩) := by
  unfold utf8Lead
  rw [if_neg (by omega), if_neg (by omega), if_neg (by omega), if_pos h2]

/-- Characterisation of `utf8Lead` on a four-byte lead. -/
theorem utf8Lead_four (b : Nat) (h1 : 0xF0 ≤ b) (h2 : b ≤ 0xF4) :
    utf8Lead b = ([], ⟨b - 0xF0, 3, if b = 0xF0 then 0x90 else 0x80,
      if b = 0xF4 then 0x8F else 0xBF⟩) := by
  unfold utf8Lead
  rw [if_neg (by omega), if_neg (by omega), if_neg (by omega), if_neg (by omega), if_pos h2]

/-- In the ground state every byte is processed as a lead byte. -/
theorem utf8Step_ground (b : Nat) : utf8Step utf8Init b = utf8Lead b := rfl

/-- A valid final continuation byte completes the sequence and emits the
accumulated code point. -/
theorem utf8Step_last (cp lo hi b : Nat) (h1 : lo ≤ b) (h2 : b ≤ hi) :
    utf8Step ⟨cp, 1, lo, hi⟩ b = ([Char.ofNat (cp * 0x40 + (b - 0x80))], utf8Init) := by
  unfold utf8Step
  rw [if_neg (by simp), if_pos ⟨h1, h2⟩, if_pos rfl]

/-- A valid non-final continuation byte accumulates and tightens nothing. -/
theorem utf8Step_mid (cp k lo hi b : Nat) (h1 : lo ≤ b) (h2 : b ≤ hi) :
    utf8Step ⟨cp, k + 2, lo, hi⟩ b =
      ([], ⟨cp * 0x40 + (b - 0x80), k + 1, 0x80, 0xBF⟩) := by
  unfold utf8Step
  rw [if_neg (by simp), if_pos ⟨h1, h2⟩, if_neg (by simp)]
  simp

/-- Running the decoder on a well-formed one-byte sequence. -/
theorem utf8Run_one (b : Nat) (rest : List Nat) (h : b ≤ 0x7F) :
    utf8Run utf8Init (b :: rest) = Char.ofNat b :: utf8Run utf8Init rest := by
  have e1 : utf8Step utf8Init b = ([Char.ofNat b], utf8Init) := by
    rw [utf8Step_ground, utf8Lead_one b h]
  simp only [utf8Run, e1]
  simp

/-- Running the decoder on a well-formed two-byte sequence. -/
theorem utf8Run_two (b1 b2 : Nat) (rest : List Nat)
    (h1 : 0xC2 ≤ b1) (h2 : b1 ≤ 0xDF) (h3 : 0x80 ≤ b2) (h4 : b2 ≤ 0xBF) :
    utf8Run utf8Init (b1 :: b2 :: rest) =
      Char.ofNat ((b1 - 0xC0) * 0x40 + (b2 - 0x80)) :: utf8Run utf8Init rest := by
  have e1 : utf8Step utf8Init b1 = ([], ⟨b1 - 0xC0, 1, 0x80, 0xBF⟩) := by
    rw [utf8Step_ground, utf8Lead_two b1 h1 h2]
  have e2 := utf8Step_last (b1 - 0xC0) 0x80 0xBF b2 h3 h4
  simp only [utf8Run, e1, e2]
  simp

/-- Running the decoder on a well-formed three-byte sequence. -/
theorem utf8Run_three (b1 b2 b3 : Nat) (rest : List Nat)
    (h1 : 0xE0 ≤ b1) (h2 : b1 ≤ 0xEF)
    (h3 : (if b1 = 0xE0 then 0xA0 else 0x80) ≤ b2)
    (h4 : b2 ≤ (if b1 = 0xED then 0x9F else 0xBF))
    (h5 : 0x80 ≤ b3) (h6 : b3 ≤ 0xBF) :
    utf8Run utf8Init (b1 :: b2 :: b3 :: rest) =
      Char.ofNat (((b1 - 0xE0) * 0x40 + (b2 - 0x80)) * 0x40 + (b3 - 0x80)) ::
        utf8Run utf8Init rest := by
  have e1 : utf8Step utf8Init b1 = ([], ⟨b1 - 0xE0, 2,
      if b1 = 0xE0 then 0xA0 else 0x80, if b1 = 0xED then 0x9F else 0xBF⟩) := by
    rw [utf8Step_ground, utf8Lead_three b1 h1 h2]
  have e2 := utf8Step_mid (b1 - 0xE0) 0 _ _ b2 h3 h4
  have e3 := utf8Step_last ((b1 - 0xE0) * 0x40 + (b2 - 0x80)) 0x80 0xBF b3 h5 h6
  simp only [utf8Run, e1, e2, e3]
  simp

/-- Running the decoder on a well-formed four-byte sequence. -/
theorem utf8Run_four (b1 b2 b3 b4 : Nat) (rest : List Nat)
    (h1 : 0xF0 ≤ b1) (h2 : b1 ≤ 0xF4)
    (h3 : (if b1 = 0xF0 then 0x90 else 0x80) ≤ b2)
    (h4 : b2 ≤ (if b1 = 0xF4 then 0x8F else 0xBF))
    (h5 : 0x80 ≤ b3) (h6 : b3 ≤ 0xBF) (h7 : 0x80 ≤ b4) (h8 : b4 ≤ 0xBF) :
    utf8Run utf8Init (b1 :: b2 :: b3 :: b4 :: rest) =
      Char.ofNat ((((b1 - 0xF0) * 0x40 + (b2 - 0x80)) * 0x40 + (b3 - 0x80)) * 0x40 +
          (b4 - 0x80)) :: utf8Run utf8Init rest := by
  have e1 : utf8Step utf8Init b1 = ([], ⟨b1 - 0xF0, 3,
      if b1 = 0xF0 then 0x90 else 0x80, if b1 = 0xF4 then 0x8F else 0xBF⟩) := by
    rw [utf8Step_ground, utf8Lead_four b1 h1 h2]
  have e2 := utf8Step_mid (b1 - 0xF0) 1 _ _ b2 h3 h4
  have e3 := utf8Step_mid ((b1 - 0xF0) * 0x40 + (b2 - 0x80)) 0 0x80 0xBF b3 h5 h6
  have e4 := utf8Step_last (((b1 - 0xF0) * 0x40 + (b2 - 0x80)) * 0x40 + (b3 - 0x80))
    0x80 0xBF b4 h7 h8
  simp only [utf8Run, e1, e2, e3, e4]
  simp

/-- Decoding a UTF-8-encoded character at the head of a byte stream yields that
character and continues with the remainder. -/
theorem utf8Run_encodeChar (c : Char) (rest : List Nat) :
    utf8Run utf8Init (utf8EncodeChar c ++ rest) = c :: utf8Run utf8Init rest := by
  have hv := char_valid_nat c
  have hofn : Char.ofNat c.toNat = c := Char.ofNat_toNat c
  by_cases habc : c.toNat ≤ 0x7F
  · have he : utf8EncodeChar c = [c.toNat] := by
      simp only [utf8EncodeChar]
      rw [if_pos habc]
    rw [he, List.cons_append, List.nil_append, utf8Run_one _ _ habc, hofn]
  · by_cases h2 : c.toNat ≤ 0x7FF
    · have he : utf8EncodeChar c = [0xC0 + c.toNat / 0x40, 0x80 + c.toNat % 0x40] := by
        simp only [utf8EncodeChar]
        rw [if_neg habc, if_pos h2]
      rw [he]
      simp only [List.cons_append, List.nil_append]
      rw [utf8Run_two _ _ _ (by omega) (by omega) (by omega) (by omega)]
      have hx : (0xC0 + c.toNat / 0x40 - 0xC0) * 0x40 + (0x80 + c.toNat % 0x40 - 0x80)
          = c.toNat := by omega
      rw [hx, hofn]
    · by_cases h3 : c.toNat ≤ 0xFFFF
      · have he : utf8EncodeChar c =
            [0xE0 + c.toNat / 0x1000, 0x80 + (c.toNat / 0x40) % 0x40, 0x80 + c.toNat % 0x40] := by
          simp only [utf8EncodeChar]
          rw [if_neg habc, if_neg h2, if_pos h3]
        rw [he]
        simp only [List.cons_append, List.nil_append]
        rw [utf8Run_three _ _ _ _ (by omega) (by omega)
          (by split_ifs with hsp <;> omega) (by split_ifs with hsp <;> omega)
          (by omega) (by omega)]
        have hx : ((0xE0 + c.toNat / 0x1000 - 0xE0) * 0x40 +
              (0x80 + (c.toNat / 0x40) % 0x40 - 0x80)) * 0x40 +
              (0x80 + c.toNat % 0x40 - 0x80) = c.toNat := by omega
        rw [hx, hofn]
      · have he : utf8EncodeChar c =
            [0xF0 + c.toNat / 0x40000, 0x80 + (c.toNat / 0x1000) % 0x40,
             0x80 + (c.toNat / 0x40) % 0x40, 0x80 + c.toNat % 0x40] := by
          simp only [utf8EncodeChar]
          rw [if_neg habc, if_neg h2, if_neg h3]
        rw [he]
        simp only [List.cons_append, List.nil_append]
        rw [utf8Run_four _ _ _ _ _ (by omega) (by omega)
          (by split_ifs with hsp <;> omega) (by split_ifs with hsp <;> omega)
          (by omega) (by omega) (by omega) (by omega)]
        have hx : (((0xF0 + c.toNat / 0x40000 - 0xF0) * 0x40 +
              (0x80 + (c.toNat / 0x1000) % 0x40 - 0x80)) * 0x40 +
              (0x80 + (c.toNat / 0x40) % 0x40 - 0x80)) * 0x40 +
              (0x80 + c.toNat % 0x40 - 0x80) = c.toNat := by omega
        rw [hx, hofn]

/-- Round trip: replacement-decoding a valid UTF-8 encoding recovers the
original text exactly (so valid uploads are not altered by
`decode("utf-8", errors="replace")` followed by `encode("utf-8")`). -/
theorem utf8DecodeReplace_encode (s : Str) : utf8DecodeReplace (utf8Encode s) = s := by
  induction s with
  | nil => rfl
  | cons c t ih =>
    have he : utf8Encode (c :: t) = utf8EncodeChar c ++ utf8Encode t := by
      simp [utf8Encode]
    simp only [utf8DecodeReplace] at *
    rw [he, utf8Run_encodeChar, ih]

/-- Outcome of one outbound HTTP call as observed by the code: either an
exception raised at any point of the call (connection error, timeout, body
read failure, malformed JSON), or a response with a status code and the one
JSON field the code reads from the body (`sessionId` for the first obfuscator
call, `code` for the second; `none` when the field is missing). -/
inductive CallResult where
  | exn
  | resp (status : Nat) (field : Option Str)
  deriving DecidableEq

/-- Behaviour of the remote obfuscation service for one request: the outcome
of the `newscript` (session creation) call and of the `obfuscate` (transform)
call. -/
structure ObfRemote where
  newscript : CallResult
  obf : CallResult
  deriving DecidableEq

/-- Outcome of the webhook POST: an exception, or a response status. -/
inductive WebhookOutcome where
  | exn
  | resp (status : Nat)
  deriving DecidableEq

/-- The environment a request runs in: the two configuration secrets read
from the process environment at lines 20-21 of `main.py`, and the behaviour
of the external services for this request. -/
structure World where
  apiKey : Option Str
  webhookUrl : Option Str
  webhook : WebhookOutcome
  remote : ObfRemote
  deriving DecidableEq

/-- One outbound call event; `sess` is a token identifying the
`aiohttp.ClientSession` the call was made on. -/
inductive Event where
  | webhookCall (sess : Nat) (filename : Str) (content : Str)
  | newscriptCall (sess : Nat) (script : Str)
  | transformCall (sess : Nat)
  deriving DecidableEq

/-- Body of the `try` block of `send_to_webhook` (lines 36-47 of `main.py`):
builds the multipart form and posts it; a non-(200, 204) status only logs a
warning and still returns normally; `.error` is the body raising. -/
def send_to_webhook_try (outcome : WebhookOutcome) : Except Str Unit :=
  match outcome with
  | .exn => .error "webhook transport exception".data
  | .resp _ => .ok ()

/-- Model of `send_to_webhook` (lines 30-49 of `main.py`): skipped when no
webhook URL is configured; otherwise one POST attempt whose failures are all
caught by the `except` clause at line 48. The first component is what the
caller observes; the second is the trace of outbound calls made. -/
def send_to_webhook (webhookUrl : Option Str) (outcome : WebhookOutcome)
    (sess : Nat) (filename content : Str) : Except Str Unit × List Event :=
  if !truthyOpt webhookUrl then (.ok (), [])
  else
    (match send_to_webhook_try outcome with
     | .error _ => .ok ()
     | .ok u => .ok u,
     [.webhookCall sess filename content])

/-- Body of the `try` block of `obfuscate_script` (lines 60-97 of `main.py`):
POST to `newscript`; on 200 read `sessionId` (falsy value counts as absent);
then POST to `obfuscate` and on 200 return `data2.get("code", script)` (the
default applies only when the `code` key is missing). `.error` is the body
raising at some point; the trace records which remote calls were attempted. -/
def obfuscate_try (remote : ObfRemote) (sess : Nat) (script : Str) :
    Except Str Str × List Event :=
  match remote.newscript with
  | .exn => (.error "newscript exception".data, [.newscriptCall sess script])
  | .resp status sessionId =>
    if status ≠ 200 then (.ok script, [.newscriptCall sess script])
    else if !truthyOpt sessionId then (.ok script, [.newscriptCall sess script])
    else
      match remote.obf with
      | .exn => (.error "obfuscate exception".data,
          [.newscriptCall sess script, .transformCall sess])
      | .resp status2 code =>
        if status2 ≠ 200 then
          (.ok script, [.newscriptCall sess script, .transformCall sess])
        else
          (.ok (code.getD script), [.newscriptCall sess script, .transformCall sess])

/-- Model of `obfuscate_script` (lines 52-100 of `main.py`): immediately
returns the input when no API key is configured (line 54); otherwise runs the
two-call exchange with the `except` clause at lines 98-100 converting any
raise into returning the original script. The first component is what the
caller observes. -/
def obfuscate_script_run (apiKey : Option Str) (remote : ObfRemote) (sess : Nat)
    (script : Str) : Except Str Str × List Event :=
  if !truthyOpt apiKey then (.ok script, [])
  else
    let t := obfuscate_try remote sess script
    (match t.1 with
     | .error _ => .ok script
     | .ok r => .ok r,
     t.2)

/-- An uploaded file as the handler sees it: the client-supplied filename
(`None` when absent) and the raw uploaded bytes. -/
structure UploadFileModel where
  filename : Option Str
  content : List Nat
  deriving DecidableEq

/-- A multipart submission to `POST /obfuscate`: optional uploaded file,
optional pasted script text, optional requested output filename. -/
structure Submission where
  file : Option UploadFileModel
  script : Option Str
  filename : Option Str
  deriving DecidableEq

/-- An ASCII single-quote character (code point 39). -/
def squote : Str := [Char.ofNat 39]

/-- The fixed 400 error body of line 277 of `main.py`. -/
def noInputMsg : Str :=
  "<p style=".data ++ squote ++ "color:red".data ++ squote ++
    ">Error: No input provided.</p>".data

/-- The 500 error body of line 306 of `main.py`, carrying the exception text. -/
def serverErrorBody (e : Str) : Str :=
  "<p style=".data ++ squote ++ "color:red".data ++ squote ++ ">Error: ".data ++
    e ++ "</p>".data

/-- A response from the handler: an HTML error page with a status code, or a
200 streaming attachment whose `Content-Disposition` carries `outName`. -/
inductive Response where
  | html (status : Nat) (body : Str)
  | stream (body : List Nat) (outName : Str)
  deriving DecidableEq

/-- Content-source resolution, lines 280-286 of `main.py`: an uploaded file
takes precedence; its bytes are decoded with `errors="replace"` and its
filename defaults to `"uploaded_script.lua"` when falsy; otherwise the pasted
text is used under the fixed name `"pasted_script.lua"`. Returns
`(incoming_name, content)`. -/
def resolveSource (sub : Submission) : Str × Str :=
  match sub.file with
  | some f => (pyOr f.filename "uploaded_script.lua".data, utf8DecodeReplace f.content)
  | none => ("pasted_script.lua".data, pyOr sub.script [])

/-- The suffix test of line 297 of `main.py`:
`out_name.lower().endswith((".lua", ".txt"))`. -/
def hasLuaTxtSuffix (s : Str) : Bool :=
  ".lua".data.isSuffixOf (pyLower s) || ".txt".data.isSuffixOf (pyLower s)

/-- Output filename computation, lines 296-298 of `main.py`: the requested
name when truthy, else `"obfuscated_" + incoming_name`; `.lua` is appended
when the lowercased result ends in neither `.lua` nor `.txt`. -/
def computeOutName (requested : Option Str) (incoming : Str) : Str :=
  let out := pyOr requested ("obfuscated_".data ++ incoming)
  if !hasLuaTxtSuffix out then out ++ ".lua".data else out

/-- Model of the `POST /obfuscate` handler (lines 273-306 of `main.py`).
The 400 check uses Python truthiness (`not file and not script`), so an empty
pasted string with no file is rejected. Inside the `try` block one client
session (token 0) is used for the webhook send and then the obfuscation
exchange; if either of those functions raised to the handler, the `except`
clause at lines 304-306 would produce a 500 page. Returns the response and
the trace of outbound calls. -/
def obfuscate (world : World) (sub : Submission) : Response × List Event :=
  if sub.file.isNone && !truthyOpt sub.script then
    (.html 400 noInputMsg, [])
  else
    let rs := resolveSource sub
    let sw := send_to_webhook world.webhookUrl world.webhook 0 rs.1 rs.2
    match sw.1 with
    | .error e => (.html 500 (serverErrorBody e), sw.2)
    | .ok _ =>
      let ob := obfuscate_script_run world.apiKey world.remote 0 rs.2
      match ob.1 with
      | .error e => (.html 500 (serverErrorBody e), sw.2 ++ ob.2)
      | .ok obfuscated =>
        (.stream (utf8Encode obfuscated) (computeOutName sub.filename rs.1),
         sw.2 ++ ob.2)

example :
    (obfuscate ⟨none, none, .resp 204, ⟨.resp 200 none, .resp 200 none⟩⟩
      ⟨none, some "x=1".data, some "out".data⟩).1 =
    .stream (utf8Encode "x=1".data) "out.lua".data := by decide

example :
    (obfuscate ⟨none, none, .resp 204, ⟨.resp 200 none, .resp 200 none⟩⟩
      ⟨some ⟨some "test.lua".data, utf8Encode "pri".data⟩, none, none⟩).1 =
    .stream (utf8Encode "pri".data) "obfuscated_test.lua".data := by decide

example :
    (obfuscate ⟨some "k".data, some "u".data, .resp 204,
      ⟨.resp 200 (some "sid".data), .resp 200 (some "OBF".data)⟩⟩
      ⟨none, some "x=1".data, none⟩) =
    (.stream (utf8Encode "OBF".data) "obfuscated_pasted_script.lua".data,
     [.webhookCall 0 "pasted_script.lua".data "x=1".data,
      .newscriptCall 0 "x=1".data, .transformCall 0]) := by decide

/-- The session token an event was made on. -/
def eventSess : Event → Nat
  | .webhookCall s _ _ => s
  | .newscriptCall s _ => s
  | .transformCall s => s

/-- Closed form of `send_to_webhook`: the caller always observes `.ok ()`, and
one POST attempt is traced exactly when a webhook URL is configured. -/
theorem send_to_webhook_eq (url : Option Str) (o : WebhookOutcome) (sess : Nat)
    (f c : Str) :
    send_to_webhook url o sess f c =
      (.ok (), if truthyOpt url then [.webhookCall sess f c] else []) := by
  unfold send_to_webhook send_to_webhook_try
  cases o <;> by_cases h : truthyOpt url <;> simp [h]

/-- `obfuscate_script` never raises to its caller: the visible result is
always `.ok`. -/
theorem obfuscate_script_run_ok (k : Option Str) (r : ObfRemote) (sess : Nat)
    (s : Str) : ∃ v, (obfuscate_script_run k r sess s).1 = .ok v := by
  unfold obfuscate_script_run
  by_cases hk : truthyOpt k
  · simp only [hk, Bool.not_true, Bool.false_eq_true, if_false]
    cases h : (obfuscate_try r sess s).1 <;> simp
  · simp only [Bool.not_eq_true] at hk
    simp [hk]

/-- With no API key configured, `obfuscate_script` returns the input at once,
making no remote call. -/
theorem obfuscate_script_run_noKey (k : Option Str) (r : ObfRemote) (sess : Nat)
    (s : Str) (hk : truthyOpt k = false) :
    obfuscate_script_run k r sess s = (.ok s, []) := by
  unfold obfuscate_script_run
  simp [hk]

/-- A submission with a content source fails the `not file and not script`
test. -/
theorem validation_false (sub : Submission)
    (h : sub.file.isSome = true ∨ truthyOpt sub.script = true) :
    (sub.file.isNone && !truthyOpt sub.script) = false := by
  rcases h with h | h
  · cases hf : sub.file <;> simp_all
  · simp [h]

/-- Closed form of the handler on a submission that passes validation: the
response is a 200 stream of the UTF-8-encoded obfuscation result under the
computed output name, after a webhook attempt and the obfuscation exchange on
the shared session. -/
theorem obfuscate_stream_form (world : World) (sub : Submission)
    (h : sub.file.isSome = true ∨ truthyOpt sub.script = true) :
    ∃ v, (obfuscate_script_run world.apiKey world.remote 0 (resolveSource sub).2).1 =
        .ok v ∧
      obfuscate world sub =
        (.stream (utf8Encode v) (computeOutName sub.filename (resolveSource sub).1),
          (if truthyOpt world.webhookUrl then
            [Event.webhookCall 0 (resolveSource sub).1 (resolveSource sub).2] else []) ++
          (obfuscate_script_run world.apiKey world.remote 0 (resolveSource sub).2).2) := by
  obtain ⟨v, hv⟩ := obfuscate_script_run_ok world.apiKey world.remote 0 (resolveSource sub).2
  refine ⟨v, hv, ?_⟩
  unfold obfuscate
  rw [validation_false sub h]
  simp only [Bool.false_eq_true, if_false, send_to_webhook_eq, hv]

/-- Appending `".lua"` makes the suffix test of line 297 succeed. -/
theorem hasLuaTxtSuffix_append_lua (s : Str) :
    hasLuaTxtSuffix (s ++ ".lua".data) = true := by
  unfold hasLuaTxtSuffix pyLower
  rw [List.map_append]
  have hl : ".lua".data.map Char.toLower = ".lua".data := by decide
  rw [hl]
  simp [List.isSuffixOf]

/-- Claim C1 as stated is false: with the obfuscation credential absent, the
200 response body is the UTF-8 re-encoding of the replacement-decoded upload,
not the uploaded bytes themselves. At the one-byte upload `0xFF` (not valid
UTF-8) the body is `EF BF BD` (U+FFFD encoded), which differs from the
upload. -/
theorem claim_C1_counterexample :
    (obfuscate ⟨none, none, .resp 204, ⟨.resp 200 none, .resp 200 none⟩⟩
        ⟨some ⟨some "f.lua".data, [0xFF]⟩, none, none⟩).1 =
      .stream [0xEF, 0xBF, 0xBD] "obfuscated_f.lua".data ∧
    [0xEF, 0xBF, 0xBD] ≠ [0xFF] := by
  constructor
  · decide
  · decide

/-- Claim C1, amended: with the obfuscation credential absent, the 200
response body bytes equal the UTF-8 encoding of the pasted text, and equal
the uploaded bytes themselves whenever those bytes are valid UTF-8 (an upload
that is not valid UTF-8 is replacement-decoded and re-encoded instead). -/
theorem claim_C1_amended (world : World) (sub : Submission)
    (hkey : truthyOpt world.apiKey = false) :
    (∀ txt, sub.file = none → sub.script = some txt → txt ≠ [] →
        ∃ nm, (obfuscate world sub).1 = .stream (utf8Encode txt) nm) ∧
    (∀ f s, sub.file = some f → f.content = utf8Encode s →
        ∃ nm, (obfuscate world sub).1 = .stream f.content nm) := by
  constructor
  · intro txt hf hs hne
    have hpass : sub.file.isSome = true ∨ truthyOpt sub.script = true := by
      right
      rw [hs]
      simp [truthyOpt, hne]
    obtain ⟨v, hv, heq⟩ := obfuscate_stream_form world sub hpass
    rw [obfuscate_script_run_noKey _ _ _ _ hkey] at hv
    have hrs : (resolveSource sub).2 = txt := by
      unfold resolveSource
      rw [hf, hs]
      simp [pyOr, hne]
    rw [hrs] at hv
    simp only [Except.ok.injEq] at hv
    rw [heq]
    exact ⟨_, by rw [hv]⟩
  · intro f s hf hc
    have hpass : sub.file.isSome = true ∨ truthyOpt sub.script = true := by
      left
      rw [hf]
      rfl
    obtain ⟨v, hv, heq⟩ := obfuscate_stream_form world sub hpass
    rw [obfuscate_script_run_noKey _ _ _ _ hkey] at hv
    have hrs : (resolveSource sub).2 = s := by
      unfold resolveSource
      rw [hf]
      simp [hc, utf8DecodeReplace_encode]
    rw [hrs] at hv
    simp only [Except.ok.injEq] at hv
    rw [heq]
    exact ⟨computeOutName sub.filename (resolveSource sub).1, by rw [← hv, ← hc]⟩

/-- Witness for C1 (amended): a concrete pasted submission with no credential
streams back exactly the UTF-8 encoding of the pasted text. -/
theorem claim_C1_witness :
    ∃ nm, (obfuscate ⟨none, none, .resp 204, ⟨.resp 200 none, .resp 200 none⟩⟩
      ⟨none, some "x=1".data, none⟩).1 = .stream (utf8Encode "x=1".data) nm :=
  (claim_C1_amended _ _ (by decide)).1 "x=1".data rfl rfl (by decide)

/-- A failing behaviour of the remote obfuscation service, as enumerated by
claim C2: session creation raises or returns non-200 or returns a body with
no (truthy) session identifier, or the transform call raises or returns
non-200. -/
def remoteFails (remote : ObfRemote) : Prop :=
  remote.newscript = .exn ∨
  (∃ st sid, remote.newscript = .resp st sid ∧ (st ≠ 200 ∨ truthyOpt sid = false)) ∨
  remote.obf = .exn ∨
  (∃ st2 c2, remote.obf = .resp st2 c2 ∧ st2 ≠ 200)

/-- Claim C2: `obfuscate_script` never raises to its caller (the visible
result is always `.ok`), and under every failing remote behaviour it returns
the original script text unchanged. -/
theorem claim_C2 (apiKey : Option Str) (remote : ObfRemote) (sess : Nat)
    (script : Str) :
    (∃ v, (obfuscate_script_run apiKey remote sess script).1 = .ok v) ∧
    (remoteFails remote →
      (obfuscate_script_run apiKey remote sess script).1 = .ok script) := by
  refine ⟨obfuscate_script_run_ok _ _ _ _, ?_⟩
  intro hf
  by_cases hk : truthyOpt apiKey
  · unfold obfuscate_script_run
    simp only [hk, Bool.not_true, Bool.false_eq_true, if_false]
    rcases hf with h | h | h | h
    · simp [obfuscate_try, h]
    · obtain ⟨st, sid, hns, hbad⟩ := h
      rcases hbad with hst | hsid
      · simp [obfuscate_try, hns, hst]
      · by_cases hst : st = 200
        · simp [obfuscate_try, hns, hst, hsid]
        · simp [obfuscate_try, hns, hst]
    · cases hns : remote.newscript with
      | exn => simp [obfuscate_try, hns]
      | resp st sid =>
        by_cases hst : st = 200
        · by_cases hsid : truthyOpt sid
          · simp [obfuscate_try, hns, hst, hsid, h]
          · simp [obfuscate_try, hns, hst, hsid]
        · simp [obfuscate_try, hns, hst]
    · obtain ⟨st2, c2, hobf, hst2⟩ := h
      cases hns : remote.newscript with
      | exn => simp [obfuscate_try, hns]
      | resp st sid =>
        by_cases hst : st = 200
        · by_cases hsid : truthyOpt sid
          · simp [obfuscate_try, hns, hst, hsid, hobf, hst2]
          · simp [obfuscate_try, hns, hst, hsid]
        · simp [obfuscate_try, hns, hst]
  · rw [obfuscate_script_run_noKey _ _ _ _ (by simpa using hk)]

/-- Witness for C2: a concrete failing behaviour (session creation returns
500) with a key configured yields the original script. -/
theorem claim_C2_witness :
    (∃ v, (obfuscate_script_run (some "k".data) ⟨.resp 500 none, .resp 200 none⟩
        0 "print".data).1 = .ok v) ∧
    (obfuscate_script_run (some "k".data) ⟨.resp 500 none, .resp 200 none⟩
        0 "print".data).1 = .ok "print".data :=
  ⟨(claim_C2 (some "k".data) ⟨.resp 500 none, .resp 200 none⟩ 0 "print".data).1,
   (claim_C2 (some "k".data) ⟨.resp 500 none, .resp 200 none⟩ 0 "print".data).2
     (Or.inr (Or.inl ⟨500, none, rfl, Or.inl (by decide)⟩))⟩

/-- Claim C3: the output filename is the requested name when provided, else
`"obfuscated_" + source_name`; `.lua` is then appended exactly once iff the
lowercased result ends in neither `.lua` nor `.txt` (a name already carrying
such a suffix, in any case, is left unchanged; after one append the suffix
test succeeds, so the append happens exactly once). -/
theorem claim_C3 (requested : Option Str) (incoming : Str) :
    (hasLuaTxtSuffix (pyOr requested ("obfuscated_".data ++ incoming)) = true →
        computeOutName requested incoming =
          pyOr requested ("obfuscated_".data ++ incoming)) ∧
    (hasLuaTxtSuffix (pyOr requested ("obfuscated_".data ++ incoming)) = false →
        computeOutName requested incoming =
          pyOr requested ("obfuscated_".data ++ incoming) ++ ".lua".data ∧
        hasLuaTxtSuffix (computeOutName requested incoming) = true) := by
  constructor
  · intro h
    simp only [computeOutName]
    rw [h]
    simp
  · intro h
    refine ⟨?_, ?_⟩
    · simp only [computeOutName]
      rw [h]
      simp
    · simp only [computeOutName]
      rw [h]
      simp only [Bool.not_false, if_true]
      exact hasLuaTxtSuffix_append_lua _

/-- Witness for C3: requested name `"out"` (no recognised suffix) becomes
`"out.lua"`, and the result passes the suffix test. -/
theorem claim_C3_witness :
    computeOutName (some "out".data) "pasted_script.lua".data =
      pyOr (some "out".data) ("obfuscated_".data ++ "pasted_script.lua".data) ++
        ".lua".data ∧
    hasLuaTxtSuffix (computeOutName (some "out".data) "pasted_script.lua".data) = true :=
  (claim_C3 (some "out".data) "pasted_script.lua".data).2 (by decide)

/-- Claim C4: a submission with neither file nor (truthy) pasted text gets the
fixed 400 error page, and a submission with at least one content source never
does. -/
theorem claim_C4 (world : World) (sub : Submission) :
    (sub.file.isNone = true → truthyOpt sub.script = false →
        (obfuscate world sub).1 = .html 400 noInputMsg) ∧
    ((sub.file.isSome = true ∨ truthyOpt sub.script = true) →
        (obfuscate world sub).1 ≠ .html 400 noInputMsg) := by
  constructor
  · intro h1 h2
    unfold obfuscate
    simp [h1, h2]
  · intro h
    obtain ⟨v, hv, heq⟩ := obfuscate_stream_form world sub h
    rw [heq]
    simp

/-- Witness for C4: with no input the concrete result is the 400 page; with
pasted text it is not. -/
theorem claim_C4_witness :
    (obfuscate ⟨none, none, .resp 204, ⟨.exn, .exn⟩⟩ ⟨none, none, none⟩).1 =
      .html 400 noInputMsg ∧
    (obfuscate ⟨none, none, .resp 204, ⟨.exn, .exn⟩⟩
        ⟨none, some "a".data, none⟩).1 ≠ .html 400 noInputMsg :=
  ⟨(claim_C4 ⟨none, none, .resp 204, ⟨.exn, .exn⟩⟩ ⟨none, none, none⟩).1 rfl rfl,
   (claim_C4 ⟨none, none, .resp 204, ⟨.exn, .exn⟩⟩ ⟨none, some "a".data, none⟩).2
     (Or.inr (by decide))⟩

/-- Claim C5: when session creation returns a non-200 status,
`obfuscate_script` returns the original input and the transform call is never
made (no transform event appears in the trace). -/
theorem claim_C5 (apiKey : Option Str) (remote : ObfRemote) (sess : Nat)
    (script : Str) (st : Nat) (sid : Option Str)
    (hns : remote.newscript = .resp st sid) (hst : st ≠ 200) :
    (obfuscate_script_run apiKey remote sess script).1 = .ok script ∧
    ∀ s, Event.transformCall s ∉ (obfuscate_script_run apiKey remote sess script).2 := by
  by_cases hk : truthyOpt apiKey
  · have ht : obfuscate_try remote sess script =
        (.ok script, [.newscriptCall sess script]) := by
      simp [obfuscate_try, hns, hst]
    unfold obfuscate_script_run
    simp [hk, ht]
  · rw [obfuscate_script_run_noKey _ _ _ _ (by simpa using hk)]
    simp

/-- Witness for C5: a concrete 404 session-creation response yields the
original script and no transform event. -/
theorem claim_C5_witness :
    (obfuscate_script_run (some "k".data)
        ⟨.resp 404 (some "sid".data), .resp 200 (some "c".data)⟩ 0 "x".data).1 =
      .ok "x".data ∧
    ∀ s, Event.transformCall s ∉
      (obfuscate_script_run (some "k".data)
        ⟨.resp 404 (some "sid".data), .resp 200 (some "c".data)⟩ 0 "x".data).2 :=
  claim_C5 (some "k".data) ⟨.resp 404 (some "sid".data), .resp 200 (some "c".data)⟩
    0 "x".data 404 (some "sid".data) rfl (by decide)

/-- Every event traced by the obfuscation exchange is made on the session it
was given. -/
theorem obfuscate_try_sess (r : ObfRemote) (sess : Nat) (s : Str) :
    ∀ e ∈ (obfuscate_try r sess s).2, eventSess e = sess := by
  unfold obfuscate_try
  rcases hns : r.newscript with _ | ⟨st, sid⟩
  · simp [eventSess]
  · by_cases hst : st = 200
    · by_cases hsid : truthyOpt sid
      · rcases hobf : r.obf with _ | ⟨st2, c2⟩
        · simp [hst, hsid, eventSess]
        · by_cases hst2 : st2 = 200 <;> simp [hst, hsid, hst2, eventSess]
      · simp [hst, hsid, eventSess]
    · simp [hst, eventSess]

/-- Every event traced by `obfuscate_script` is made on the session it was
given. -/
theorem obfuscate_script_run_sess (k : Option Str) (r : ObfRemote) (sess : Nat)
    (s : Str) : ∀ e ∈ (obfuscate_script_run k r sess s).2, eventSess e = sess := by
  unfold obfuscate_script_run
  by_cases hk : truthyOpt k
  · simp only [hk, Bool.not_true, Bool.false_eq_true, if_false]
    simpa using obfuscate_try_sess r sess s
  · simp [hk]

/-- Claim C6: `send_to_webhook` never raises to its caller (every HTTP status
and every transport exception is absorbed), and the webhook outcome never
changes the handler's response or trace. -/
theorem claim_C6 :
    (∀ (url : Option Str) (o : WebhookOutcome) (sess : Nat) (f c : Str),
        (send_to_webhook url o sess f c).1 = Except.ok ()) ∧
    (∀ (world : World) (sub : Submission) (o1 o2 : WebhookOutcome),
        obfuscate {world with webhook := o1} sub =
          obfuscate {world with webhook := o2} sub) := by
  constructor
  · intro url o sess f c
    rw [send_to_webhook_eq]
  · intro world sub o1 o2
    unfold obfuscate
    simp only [send_to_webhook_eq]

/-- Claim C7: in every handled submission the webhook notification is
attempted before the obfuscation exchange (its events form a prefix of the
trace), both run on the same client session (token 0), and the obfuscation
step receives the same resolved content however the notification ended (the
whole handler result is invariant under the webhook outcome). -/
theorem claim_C7 (world : World) (sub : Submission)
    (h : sub.file.isSome = true ∨ truthyOpt sub.script = true) :
    ∃ name content,
      (obfuscate world sub).2 =
        (send_to_webhook world.webhookUrl world.webhook 0 name content).2 ++
          (obfuscate_script_run world.apiKey world.remote 0 content).2 ∧
      (∀ o2, obfuscate {world with webhook := o2} sub = obfuscate world sub) ∧
      (∀ e, e ∈ (obfuscate world sub).2 → eventSess e = 0) := by
  obtain ⟨v, hv, heq⟩ := obfuscate_stream_form world sub h
  refine ⟨(resolveSource sub).1, (resolveSource sub).2, ?_, ?_, ?_⟩
  · rw [heq, send_to_webhook_eq]
  · intro o2
    unfold obfuscate
    simp only [send_to_webhook_eq]
  · intro e he
    rw [heq] at he
    simp only [] at he
    rcases List.mem_append.mp he with h1 | h2
    · by_cases hu : truthyOpt world.webhookUrl
      · rw [if_pos hu] at h1
        simp at h1
        rw [h1]
        rfl
      · rw [if_neg hu] at h1
        simp at h1
    · exact obfuscate_script_run_sess world.apiKey world.remote 0 _ e h2

/-- Witness for C7: the decomposition at a concrete pasted submission. -/
theorem claim_C7_witness :
    ∃ name content,
      (obfuscate ⟨some "k".data, some "u".data, .resp 500,
          ⟨.resp 200 (some "sid".data), .resp 200 (some "OBF".data)⟩⟩
        ⟨none, some "x=1".data, none⟩).2 =
        (send_to_webhook (some "u".data) (.resp 500) 0 name content).2 ++
          (obfuscate_script_run (some "k".data)
            ⟨.resp 200 (some "sid".data), .resp 200 (some "OBF".data)⟩ 0 content).2 ∧
      (∀ o2, obfuscate ⟨some "k".data, some "u".data, o2,
          ⟨.resp 200 (some "sid".data), .resp 200 (some "OBF".data)⟩⟩
          ⟨none, some "x=1".data, none⟩ =
        obfuscate ⟨some "k".data, some "u".data, .resp 500,
          ⟨.resp 200 (some "sid".data), .resp 200 (some "OBF".data)⟩⟩
          ⟨none, some "x=1".data, none⟩) ∧
      (∀ e, e ∈ (obfuscate ⟨some "k".data, some "u".data, .resp 500,
          ⟨.resp 200 (some "sid".data), .resp 200 (some "OBF".data)⟩⟩
          ⟨none, some "x=1".data, none⟩).2 → eventSess e = 0) :=
  claim_C7 ⟨some "k".data, some "u".data, .resp 500,
      ⟨.resp 200 (some "sid".data), .resp 200 (some "OBF".data)⟩⟩
    ⟨none, some "x=1".data, none⟩ (Or.inr (by decide))

/-- Claim C8: an uploaded file takes precedence: its replacement-decoded bytes
and its (defaulted) filename are used and the pasted text is ignored entirely;
only without a file is the pasted text used, under the fixed name
`"pasted_script.lua"`. -/
theorem claim_C8 (world : World) (sub : Submission) :
    (∀ f, sub.file = some f →
        resolveSource sub = (pyOr f.filename "uploaded_script.lua".data,
          utf8DecodeReplace f.content) ∧
        ∀ t, obfuscate world {sub with script := t} = obfuscate world sub) ∧
    (sub.file = none →
        resolveSource sub = ("pasted_script.lua".data, pyOr sub.script [])) := by
  constructor
  · intro f hf
    constructor
    · unfold resolveSource
      rw [hf]
    · intro t
      cases sub with
      | mk file s fn =>
        simp only [Submission.mk.injEq] at hf ⊢
        subst hf
        rfl
  · intro hf
    unfold resolveSource
    rw [hf]

/-- Witness for C8: at a concrete submission carrying both a file and pasted
text, the file wins and replacing the pasted text changes nothing. -/
theorem claim_C8_witness :
    (resolveSource ⟨some ⟨some "a.txt".data, utf8Encode "X".data⟩,
        some "ignored".data, none⟩ =
      (pyOr (some "a.txt".data) "uploaded_script.lua".data,
        utf8DecodeReplace (utf8Encode "X".data))) ∧
    (obfuscate ⟨none, none, .resp 204, ⟨.exn, .exn⟩⟩
        ⟨some ⟨some "a.txt".data, utf8Encode "X".data⟩, some "zz".data, none⟩ =
      obfuscate ⟨none, none, .resp 204, ⟨.exn, .exn⟩⟩
        ⟨some ⟨some "a.txt".data, utf8Encode "X".data⟩, some "ignored".data, none⟩) ∧
    resolveSource ⟨none, some "x=1".data, none⟩ =
      ("pasted_script.lua".data, pyOr (some "x=1".data) []) :=
  ⟨((claim_C8 ⟨none, none, .resp 204, ⟨.exn, .exn⟩⟩
      ⟨some ⟨some "a.txt".data, utf8Encode "X".data⟩, some "ignored".data, none⟩).1
      ⟨some "a.txt".data, utf8Encode "X".data⟩ rfl).1,
   ((claim_C8 ⟨none, none, .resp 204, ⟨.exn, .exn⟩⟩
      ⟨some ⟨some "a.txt".data, utf8Encode "X".data⟩, some "ignored".data, none⟩).1
      ⟨some "a.txt".data, utf8Encode "X".data⟩ rfl).2 (some "zz".data),
   (claim_C8 ⟨none, none, .resp 204, ⟨.exn, .exn⟩⟩
      ⟨none, some "x=1".data, none⟩).2 rfl⟩

/-- Claim C9: an empty pasted string with no file is rejected with the same
400 response as a fully absent input, and an empty requested output filename
behaves exactly like an absent one. -/
theorem claim_C9 (world : World) (fname : Option Str) (sub : Submission) :
    obfuscate world ⟨none, some [], fname⟩ = obfuscate world ⟨none, none, fname⟩ ∧
    (obfuscate world ⟨none, some [], fname⟩).1 = .html 400 noInputMsg ∧
    obfuscate world {sub with filename := some []} =
      obfuscate world {sub with filename := none} := by
  refine ⟨rfl, rfl, ?_⟩
  cases sub with
  | mk f s fn => rfl

/-- Claim C10: a file upload with no client filename gets the source name
`"uploaded_script.lua"`, so without a requested output name the attachment is
`"obfuscated_uploaded_script.lua"`. -/
theorem claim_C10 (world : World) (raw : List Nat) (txt : Option Str) :
    ∃ body, (obfuscate world ⟨some ⟨none, raw⟩, txt, none⟩).1 =
      .stream body "obfuscated_uploaded_script.lua".data := by
  obtain ⟨v, hv, heq⟩ :=
    obfuscate_stream_form world ⟨some ⟨none, raw⟩, txt, none⟩ (Or.inl rfl)
  refine ⟨utf8Encode v, ?_⟩
  rw [heq]
  show Response.stream (utf8Encode v)
      (computeOutName none "uploaded_script.lua".data) = _
  have hn : computeOutName (none : Option Str) "uploaded_script.lua".data =
      "obfuscated_uploaded_script.lua".data := by decide
  rw [hn]
